import Mathlib

/-!
Verification development for the mcp-news repository: a shallow embedding of
the tool surface (src/server.py), the NewsAPI connector
(src/newsapi/connector.py), the pydantic response models
(src/newsapi/models.py) and the startup configuration check
(src/newsapi/__init__.py), together with theorems settling the frozen
claims about that code.
-/

/- ==================== Query parameter values ==================== -/

/-- Values stored in the outbound query parameter mappings built by
server.fetch_news, server.fetch_headlines,
NewsAPIConnector.search_everything and NewsAPIConnector.get_top_headlines.
The Python dicts hold strings and ints; entries that would be None are
filtered out before the dict is built, so no null case is needed. -/
inductive PValue where
  | str (s : String)
  | int (n : Int)
deriving DecidableEq, Repr

/-- First-match lookup in an association list, mirroring a Python dict read
(keys are inserted at most once in all the builders below). -/
def plookup (params : List (String × PValue)) (key : String) : Option PValue :=
  match params with
  | [] => none
  | (k, v) :: rest => if k = key then some v else plookup rest key

/-- Entry added only when the optional string is truthy in Python:
present and non-empty.  Embeds the pattern `if x: params["k"] = x` used in
connector.py for from_date, to_date, category and query. -/
def optTruthyEntry (key : String) (v : Option String) : List (String × PValue) :=
  match v with
  | none => []
  | some s => if s = "" then [] else [(key, PValue.str s)]

/- ==================== Date / enum validators ==================== -/

/-- ASCII digit test: CPython strptime compiles the format into a regex
whose digit classes match [0-9] on the inputs relevant here (the regex
class also admits other Unicode decimal digits, which no claim exercises). -/
def isAsciiDigit (c : Char) : Bool := '0' ≤ c && c ≤ '9'

/-- The %Y directive of CPython strptime: exactly four digits
(TimeRE pattern for Y), converted with int(). -/
def parseY4 : List Char → Option (Nat × List Char)
  | a :: b :: c :: d :: rest =>
    if isAsciiDigit a && isAsciiDigit b && isAsciiDigit c && isAsciiDigit d then
      some (1000 * (a.toNat - 48) + 100 * (b.toNat - 48) + 10 * (c.toNat - 48)
            + (d.toNat - 48), rest)
    else none
  | _ => none

/-- The %m directive of CPython strptime: regex alternation
1[0-2] or 0[1-9] or [1-9], tried left to right.  Backtracking from the
two-character alternatives to the one-character one can never succeed here,
because the character that follows the month in the format is a literal
dash and the second consumed character is always a digit. -/
def parseMonth2 : List Char → Option (Nat × List Char)
  | c1 :: c2 :: rest =>
    if c1 = '1' ∧ '0' ≤ c2 ∧ c2 ≤ '2' then some (10 + (c2.toNat - 48), rest)
    else if c1 = '0' ∧ '1' ≤ c2 ∧ c2 ≤ '9' then some (c2.toNat - 48, rest)
    else if '1' ≤ c1 ∧ c1 ≤ '9' then some (c1.toNat - 48, c2 :: rest)
    else none
  | [c1] => if '1' ≤ c1 ∧ c1 ≤ '9' then some (c1.toNat - 48, []) else none
  | [] => none

/-- The %d directive of CPython strptime: regex alternation
3[01] or [12][0-9] or 0[1-9] or [1-9], tried left to right; the same
backtracking argument as for the month applies. -/
def parseDay2 : List Char → Option (Nat × List Char)
  | c1 :: c2 :: rest =>
    if c1 = '3' ∧ '0' ≤ c2 ∧ c2 ≤ '1' then some (30 + (c2.toNat - 48), rest)
    else if ('1' ≤ c1 ∧ c1 ≤ '2') ∧ isAsciiDigit c2 then
      some (10 * (c1.toNat - 48) + (c2.toNat - 48), rest)
    else if c1 = '0' ∧ '1' ≤ c2 ∧ c2 ≤ '9' then some (c2.toNat - 48, rest)
    else if '1' ≤ c1 ∧ c1 ≤ '9' then some (c1.toNat - 48, c2 :: rest)
    else none
  | [c1] => if '1' ≤ c1 ∧ c1 ≤ '9' then some (c1.toNat - 48, []) else none
  | [] => none

/-- Literal dash between the directives of the "%Y-%m-%d" format. -/
def expectDash : List Char → Option (List Char)
  | '-' :: rest => some rest
  | _ => none

/-- Gregorian leap year rule used by datetime.date. -/
def leapYear (y : Nat) : Bool := y % 4 == 0 && (y % 100 != 0 || y % 400 == 0)

/-- Days in a month as computed by the datetime module. -/
def daysInMonth (y m : Nat) : Nat :=
  if m = 2 then (if leapYear y then 29 else 28)
  else if m = 4 ∨ m = 6 ∨ m = 9 ∨ m = 11 then 30
  else 31

/-- Bounds enforced by the datetime.datetime constructor, which strptime
calls on the matched groups: MINYEAR = 1, MAXYEAR = 9999, month 1..12 and
day 1..days of that month (a regex match such as 30 for February still
fails here). -/
def datetimeCtorOk (y m d : Nat) : Bool :=
  decide (1 ≤ y) && decide (y ≤ 9999) && decide (1 ≤ m) && decide (m ≤ 12)
    && decide (1 ≤ d) && decide (d ≤ daysInMonth y m)

/-- Match of the full "%Y-%m-%d" pattern against the character list.
strptime additionally raises when unconverted data remains, hence the
final emptiness requirement on the leftover. -/
def parseYmd (cs : List Char) : Option (Nat × Nat × Nat) :=
  (parseY4 cs).bind fun yr =>
  (expectDash yr.2).bind fun r2 =>
  (parseMonth2 r2).bind fun mr =>
  (expectDash mr.2).bind fun r4 =>
  (parseDay2 r4).bind fun dr =>
  if dr.2.isEmpty then some (yr.1, mr.1, dr.1) else none

/-- Success of datetime.strptime(s, "%Y-%m-%d"): the whole string matches
the compiled pattern and the matched values form a constructible date. -/
def strptimeYmd (s : String) : Bool :=
  match parseYmd s.data with
  | some (y, m, d) => datetimeCtorOk y m d
  | none => false

/-- Embeds both server.is_valid_date and the identical static method
NewsAPIConnector._is_valid_date: None is valid, otherwise validity is
success of datetime.strptime(date_str, "%Y-%m-%d"). -/
def is_valid_date : Option String → Bool
  | none => true
  | some s => strptimeYmd s

/-- Embeds server.is_valid_sort_by. -/
def is_valid_sort_by (sort_by : String) : Bool :=
  ["relevancy", "popularity", "publishedAt"].contains sort_by

/-- Embeds server.is_valid_category. -/
def is_valid_category (category : String) : Bool :=
  ["business", "entertainment", "general", "health", "science", "sports",
   "technology"].contains category

/-- Written from the words of the spec, for comparison with the code
validator: a strict zero-padded YYYY-MM-DD string denoting a real calendar
date (four digits, dash, two digits, dash, two digits, with year at least
1, month 1..12 and day within the month). -/
def isStrictYmd (s : String) : Bool :=
  match s.data with
  | [y1, y2, y3, y4, s1, m1, m2, s2, d1, d2] =>
    s1 == '-' && s2 == '-' && isAsciiDigit y1 && isAsciiDigit y2
      && isAsciiDigit y3 && isAsciiDigit y4 && isAsciiDigit m1
      && isAsciiDigit m2 && isAsciiDigit d1 && isAsciiDigit d2 &&
    (let y := 1000 * (y1.toNat - 48) + 100 * (y2.toNat - 48)
              + 10 * (y3.toNat - 48) + (y4.toNat - 48)
     let m := 10 * (m1.toNat - 48) + (m2.toNat - 48)
     let d := 10 * (d1.toNat - 48) + (d2.toNat - 48)
     decide (1 ≤ y) && decide (1 ≤ m) && decide (m ≤ 12) && decide (1 ≤ d)
       && decide (d ≤ daysInMonth y m))
  | _ => false

/- ==================== Request builders ==================== -/

/-- The params dict comprehension in server.fetch_news: insertion order
q, from, to, language, sortBy, pageSize, page with None values dropped
(only from_date and to_date can be None); pageSize is min(page_size, 100). -/
def serverSearchParams (query : String) (from_date to_date : Option String)
    (language sort_by : String) (page_size page : Int) :
    List (String × PValue) :=
  [("q", PValue.str query)]
  ++ (match from_date with | some s => [("from", PValue.str s)] | none => [])
  ++ (match to_date with | some s => [("to", PValue.str s)] | none => [])
  ++ [("language", PValue.str language), ("sortBy", PValue.str sort_by),
      ("pageSize", PValue.int (min page_size 100)), ("page", PValue.int page)]

/-- The params dict comprehension in server.fetch_headlines: insertion
order q, country, category, pageSize, page, None values dropped (all five
arguments are non-None strings or ints, so every key is present). -/
def serverHeadlineParams (query country category : String)
    (page_size page : Int) : List (String × PValue) :=
  [("q", PValue.str query), ("country", PValue.str country),
   ("category", PValue.str category),
   ("pageSize", PValue.int (min page_size 100)), ("page", PValue.int page)]

/-- The params dict built in NewsAPIConnector.search_everything: fixed
keys q, language, sortBy, pageSize (clamped with min(page_size, 100)) and
page, then from and to appended only when truthy. -/
def connectorSearchParams (query : String) (from_date to_date : Option String)
    (language sort_by : String) (page_size page : Int) :
    List (String × PValue) :=
  [("q", PValue.str query), ("language", PValue.str language),
   ("sortBy", PValue.str sort_by),
   ("pageSize", PValue.int (min page_size 100)), ("page", PValue.int page)]
  ++ optTruthyEntry "from" from_date
  ++ optTruthyEntry "to" to_date

/-- The params dict built in NewsAPIConnector.get_top_headlines: fixed
keys country, pageSize (clamped), page, then category and q appended only
when truthy. -/
def connectorHeadlineParams (country : String) (category query : Option String)
    (page_size page : Int) : List (String × PValue) :=
  [("country", PValue.str country),
   ("pageSize", PValue.int (min page_size 100)), ("page", PValue.int page)]
  ++ optTruthyEntry "category" category
  ++ optTruthyEntry "q" query

/-- The needle list begins the haystack list. -/
def charsStartWith : List Char → List Char → Bool
  | _, [] => true
  | [], _ :: _ => false
  | a :: as, b :: bs => a == b && charsStartWith as bs

/-- The needle occurs contiguously somewhere in the haystack. -/
def charsContain : List Char → List Char → Bool
  | [], needle => needle.isEmpty
  | a :: t, needle => charsStartWith (a :: t) needle || charsContain t needle

/-- Substring occurrence on strings, used to state whether an error
message mentions a given word. -/
def strMentions (hay needle : String) : Bool := charsContain hay.data needle.data

/- ==================== JSON values and pydantic models ==================== -/

/-- Upstream JSON bodies after parsing (httpx response.json()).  Integers
suffice for the numbers the models touch. -/
inductive Json where
  | null
  | str (s : String)
  | num (n : Int)
  | bool (b : Bool)
  | arr (xs : List Json)
  | obj (fields : List (String × Json))

/-- First-match key lookup in a JSON object field list. -/
def jlookup (fields : List (String × Json)) (key : String) : Option Json :=
  match fields with
  | [] => none
  | (k, v) :: rest => if k = key then some v else jlookup rest key

/-- Key lookup on a JSON value: objects only. -/
def Json.lookupKey : Json → String → Option Json
  | .obj fields, key => jlookup fields key
  | _, _ => none

/-- models.ArticleSource: pydantic model with nullable id and name.
All model fields below are stored by their Python field names; the
configured camel-case alias generator never produces a different key for
these names in a way the claims exercise, and populate_by_name=True makes
the field name itself always acceptable on input. -/
structure ArticleSource where
  id : Option String
  name : Option String
deriving DecidableEq, Repr

/-- models.Article.  url and urlToImage are pydantic HttpUrl values and
publishedAt a datetime; they are kept here as their accepted source
strings, with validation predicates below. -/
structure Article where
  source : ArticleSource
  author : Option String
  title : Option String
  description : Option String
  url : Option String
  urlToImage : Option String
  publishedAt : Option String
  content : Option String
deriving DecidableEq, Repr

/-- models.NewsResponse: status, totalResults and articles.  The model
declares no message field. -/
structure NewsResponse where
  status : String
  totalResults : Int
  articles : List Article
deriving DecidableEq, Repr

/-- Field names declared on models.NewsResponse. -/
def newsResponseFieldNames : List String := ["status", "totalResults", "articles"]

/-- pydantic construction with the default extra="ignore": keyword
arguments whose names match no declared field are silently dropped.
This returns the keyword names that are retained on the object. -/
def newsResponseCtorKeptKeys (kwargs : List String) : List String :=
  kwargs.filter (fun k => newsResponseFieldNames.contains k)

/-- A declared pydantic field with no default is required: a missing key
is a validation error even when the annotation admits None. -/
def requiredField (fields : List (String × Json)) (name : String) :
    Except String Json :=
  match jlookup fields name with
  | some v => .ok v
  | none => .error ("Field required: " ++ name)

/-- Validation of a field annotated str | None: explicit null maps to
none, a string is kept, anything else is a type error. -/
def parseOptStr (name : String) : Json → Except String (Option String)
  | .null => .ok none
  | .str s => .ok (some s)
  | _ => .error (name ++ ": input should be a valid string or null")

/-- Modelled approximation of the pydantic HttpUrl check: an http or
https scheme followed by a non-empty remainder.  The full URL grammar of
pydantic is not reproduced; no claim depends on its finer points. -/
def isHttpUrlStr (s : String) : Bool :=
  (s.startsWith "http://" && decide (7 < s.length))
    || (s.startsWith "https://" && decide (8 < s.length))

/-- Modelled approximation of the pydantic datetime parser (ISO 8601):
a strict zero-padded calendar date optionally followed by a time part
introduced by T or a space.  No claim depends on its finer points. -/
def isIsoDatetimeStr (s : String) : Bool :=
  isStrictYmd (String.mk (s.data.take 10))
    && (decide (s.data.length = 10) || (s.data.drop 10).head? == some 'T'
        || (s.data.drop 10).head? == some ' ')

/-- Validation of a field annotated HttpUrl | None. -/
def parseOptUrl (name : String) : Json → Except String (Option String)
  | .null => .ok none
  | .str s =>
    if isHttpUrlStr s then .ok (some s)
    else .error (name ++ ": input should be a valid URL")
  | _ => .error (name ++ ": input should be a valid URL or null")

/-- Validation of a field annotated datetime | None. -/
def parseOptDatetime (name : String) : Json → Except String (Option String)
  | .null => .ok none
  | .str s =>
    if isIsoDatetimeStr s then .ok (some s)
    else .error (name ++ ": input should be a valid datetime")
  | _ => .error (name ++ ": input should be a valid datetime or null")

/-- ArticleSource.model_validate: requires a JSON object carrying both
declared keys; each value may be a string or null. -/
def ArticleSource.model_validate (j : Json) : Except String ArticleSource :=
  match j with
  | .obj fields => do
    let idj ← requiredField fields "id"
    let idv ← parseOptStr "id" idj
    let namej ← requiredField fields "name"
    let namev ← parseOptStr "name" namej
    Except.ok ⟨idv, namev⟩
  | _ => .error "ArticleSource: input should be an object"

/-- Article.model_validate: every declared field key must be present
(pydantic fields without defaults are required); nullable fields accept
explicit null.  The nested source object must itself validate. -/
def Article.model_validate (j : Json) : Except String Article :=
  match j with
  | .obj fields => do
    let sj ← requiredField fields "source"
    let source ← ArticleSource.model_validate sj
    let authorj ← requiredField fields "author"
    let author ← parseOptStr "author" authorj
    let titlej ← requiredField fields "title"
    let title ← parseOptStr "title" titlej
    let descriptionj ← requiredField fields "description"
    let description ← parseOptStr "description" descriptionj
    let urlj ← requiredField fields "url"
    let url ← parseOptUrl "url" urlj
    let urlToImagej ← requiredField fields "urlToImage"
    let urlToImage ← parseOptUrl "urlToImage" urlToImagej
    let publishedAtj ← requiredField fields "publishedAt"
    let publishedAt ← parseOptDatetime "publishedAt" publishedAtj
    let contentj ← requiredField fields "content"
    let content ← parseOptStr "content" contentj
    Except.ok ⟨source, author, title, description, url, urlToImage,
               publishedAt, content⟩
  | _ => .error "Article: input should be an object"

/-- status is annotated plain str: a string is required (null rejected). -/
def parseStrField (name : String) : Json → Except String String
  | .str s => .ok s
  | _ => .error (name ++ ": input should be a valid string")

/-- totalResults is annotated int.  pydantic lax mode would additionally
coerce integral floats and numeric strings; that coercion is not modelled
and no claim exercises it. -/
def parseIntField (name : String) : Json → Except String Int
  | .num n => .ok n
  | _ => .error (name ++ ": input should be a valid integer")

/-- articles is annotated list[Article]: a JSON array whose members all
validate. -/
def parseArticles : Json → Except String (List Article)
  | .arr xs => xs.mapM Article.model_validate
  | _ => .error "articles: input should be a valid list"

/-- NewsResponse.model_validate, the decode the connector applies to the
upstream body (the connector refers to it under the name ArticleResponse,
a name models.py does not define; see the startup embedding below). -/
def NewsResponse.model_validate (j : Json) : Except String NewsResponse :=
  match j with
  | .obj fields => do
    let sj ← requiredField fields "status"
    let status ← parseStrField "status" sj
    let tj ← requiredField fields "totalResults"
    let totalResults ← parseIntField "totalResults" tj
    let aj ← requiredField fields "articles"
    let articles ← parseArticles aj
    Except.ok ⟨status, totalResults, articles⟩
  | _ => .error "NewsResponse: input should be an object"

/-- Serialization of an optional string back to JSON. -/
def optStrJson : Option String → Json
  | none => .null
  | some s => .str s

/-- ArticleSource.model_dump: the declared fields, by field name. -/
def ArticleSource.model_dump (s : ArticleSource) : Json :=
  .obj [("id", optStrJson s.id), ("name", optStrJson s.name)]

/-- Article.model_dump: the declared fields, by field name. -/
def Article.model_dump (a : Article) : Json :=
  .obj [("source", a.source.model_dump), ("author", optStrJson a.author),
        ("title", optStrJson a.title),
        ("description", optStrJson a.description),
        ("url", optStrJson a.url), ("urlToImage", optStrJson a.urlToImage),
        ("publishedAt", optStrJson a.publishedAt),
        ("content", optStrJson a.content)]

/-- NewsResponse.model_dump: exactly the declared fields appear as keys;
an extra keyword given at construction time is never among them. -/
def NewsResponse.model_dump (r : NewsResponse) : Json :=
  .obj [("status", .str r.status), ("totalResults", .num r.totalResults),
        ("articles", .arr (r.articles.map Article.model_dump))]

/- ==================== Remote client (connector.py) ==================== -/

/-- The state NewsAPIConnector.__init__ reads from the environment. -/
structure NewsAPIConnector where
  api_key : String
  base_url : String
deriving DecidableEq, Repr

/-- The single outbound HTTP request a connector method issues: method,
URL, query parameters, headers and the client timeout.  get_client
configures httpx.AsyncClient(timeout=30.0, headers with X-Api-Key). -/
structure HttpRequest where
  method : String
  url : String
  queryParams : List (String × PValue)
  headers : List (String × String)
  timeoutSeconds : Nat
deriving DecidableEq, Repr

/-- What the upstream does with the single request: either the transport
fails (httpx raises an httpx.RequestError subclass: connection, timeout,
and similar failures) or a response with a status code and a parsed JSON
body arrives. -/
inductive UpstreamOutcome where
  | networkError (msg : String)
  | response (statusCode : Nat) (body : Json)

/-- The result value of a connector method: Union[str, ArticleResponse]. -/
inductive SearchResult where
  | msg (s : String)
  | response (r : NewsResponse)

/-- The request built by search_everything: a GET whose URL concatenates
base_url directly with "everything" (the source inserts no slash). -/
def searchRequestOf (self : NewsAPIConnector) (params : List (String × PValue)) :
    HttpRequest :=
  ⟨"GET", self.base_url ++ "everything", params,
   [("X-Api-Key", self.api_key)], 30⟩

/-- The request built by get_top_headlines: a GET whose URL concatenates
base_url directly with "top-headlines". -/
def topHeadlinesRequestOf (self : NewsAPIConnector)
    (params : List (String × PValue)) : HttpRequest :=
  ⟨"GET", self.base_url ++ "top-headlines", params,
   [("X-Api-Key", self.api_key)], 30⟩

/-- str() of the httpx.HTTPStatusError that response.raise_for_status()
raises on a non-2xx status (the source message also carries the reason
phrase and URL; the class of message and the status code are what the
claims exercise). -/
def httpStatusErrorStr (code : Nat) : String :=
  (if code < 400 then "Redirect response \x27" else
   if code < 500 then "Client error \x27" else "Server error \x27")
  ++ toString code ++ "\x27"

/-- The try/except block shared verbatim by search_everything and
get_top_headlines.  raise_for_status() raises httpx.HTTPStatusError on any
status outside 200..299; HTTPStatusError derives from httpx.HTTPError but
not from httpx.RequestError, so the first handler (except
httpx.RequestError) does not catch it and it falls through to the second
(except Exception), as does a pydantic validation failure.  Only a 2xx
response reaches the decode. -/
def newsapiTryBlock (outcome : UpstreamOutcome) : Bool × SearchResult :=
  match outcome with
  | .networkError m => (false, .msg ("Request error: " ++ m))
  | .response code body =>
    if 200 ≤ code ∧ code ≤ 299 then
      match NewsResponse.model_validate body with
      | .ok r => (true, .response r)
      | .error em => (false, .msg ("Unexpected error: " ++ em))
    else (false, .msg ("Unexpected error: " ++ httpStatusErrorStr code))

/-- NewsAPIConnector.search_everything.  The upstream function stands for
the network: it receives the one GET request the method issues. -/
def NewsAPIConnector.search_everything (self : NewsAPIConnector)
    (upstream : HttpRequest → UpstreamOutcome) (query : String)
    (from_date to_date : Option String) (language sort_by : String)
    (page_size page : Int) : Bool × SearchResult :=
  if !(is_valid_date from_date) then
    (false, .msg "Invalid from_date format. Use YYYY-MM-DD.")
  else if !(is_valid_date to_date) then
    (false, .msg "Invalid to_date format. Use YYYY-MM-DD.")
  else if !(["relevancy", "popularity", "publishedAt"].contains sort_by) then
    (false, .msg "sort_by must be one of [\x27relevancy\x27, \x27popularity\x27, \x27publishedAt\x27]")
  else
    let params := connectorSearchParams query from_date to_date language
      sort_by page_size page
    newsapiTryBlock (upstream (searchRequestOf self params))

/-- NewsAPIConnector.get_top_headlines.  The category check mirrors the
Python truthiness test: an absent or empty category skips validation. -/
def NewsAPIConnector.get_top_headlines (self : NewsAPIConnector)
    (upstream : HttpRequest → UpstreamOutcome) (country : String)
    (category query : Option String) (page_size page : Int) :
    Bool × SearchResult :=
  let categoryTruthy := match category with
    | none => false
    | some c => c != ""
  if categoryTruthy
      && !(["business", "entertainment", "general", "health", "science",
            "sports", "technology"].contains (category.getD "")) then
    (false, .msg "category must be one of [\x27business\x27, \x27entertainment\x27, \x27general\x27, \x27health\x27, \x27science\x27, \x27sports\x27, \x27technology\x27]")
  else
    let params := connectorHeadlineParams country category query page_size page
    newsapiTryBlock (upstream (topHeadlinesRequestOf self params))

/- ==================== Tool surface (server.py) ==================== -/

/-- A Python exception that escapes a tool function. -/
inductive PyExn where
  | typeError (msg : String)
deriving DecidableEq, Repr

/-- Embeds server.error_response.  The source constructs
NewsResponse(status="error", message=message, articles=[], totalResults=0);
models.NewsResponse declares no message field and the pydantic default
extra="ignore" drops the unknown keyword, so the message argument does not
survive onto the returned object (fields in declaration order: status,
totalResults, articles). -/
def error_response (message : String) : NewsResponse :=
  ⟨"error", 0, []⟩

/-- Python keyword-argument binding for a call f(**params): every provided
key must name a declared parameter and every parameter without a default
must be bound, else the call raises TypeError before the body runs. -/
def bindKwargs (fname : String) (accepted required providedKeys : List String) :
    Except PyExn Unit :=
  match providedKeys.find? (fun k => !(accepted.contains k)) with
  | some k => .error (.typeError
      (fname ++ "() got an unexpected keyword argument \x27" ++ k ++ "\x27"))
  | none =>
    match required.find? (fun k => !(providedKeys.contains k)) with
    | some k => .error (.typeError
        (fname ++ "() missing 1 required positional argument: \x27" ++ k ++ "\x27"))
    | none => .ok ()

/-- Declared parameter names of NewsAPIConnector.search_everything
(self excluded). -/
def searchEverythingParamNames : List String :=
  ["query", "from_date", "to_date", "language", "sort_by", "page_size", "page"]

/-- Parameters of search_everything without defaults. -/
def searchEverythingRequiredParams : List String := ["query"]

/-- Declared parameter names of NewsAPIConnector.get_top_headlines
(self excluded); every one has a default. -/
def topHeadlinesParamNames : List String :=
  ["country", "category", "query", "page_size", "page"]

/-- Embeds server.fetch_news.  After validation it calls
news_api_connector.search_everything(**params) where params carries the
keys q, from, to, language, sortBy, pageSize, page; binding those keywords
against the connector signature raises TypeError, which no handler in
fetch_news catches.  The ok branch of the binding is modelled for
totality by the call the keywords were evidently meant to make. -/
def fetch_news (self : NewsAPIConnector)
    (upstream : HttpRequest → UpstreamOutcome) (query : String)
    (from_date to_date : Option String) (language sort_by : String)
    (page_size page : Int) : Except PyExn NewsResponse :=
  if !(is_valid_date from_date) then
    .ok (error_response "Invalid \x27from_date\x27 format. Use YYYY-MM-DD.")
  else if !(is_valid_date to_date) then
    .ok (error_response "Invalid \x27to_date\x27 format. Use YYYY-MM-DD.")
  else if !(is_valid_sort_by sort_by) then
    .ok (error_response
      "Invalid \x27sort_by\x27 value. Use \x27relevancy\x27, \x27popularity\x27, \x27publishedAt\x27.")
  else
    let params := serverSearchParams query from_date to_date language sort_by
      page_size page
    match bindKwargs "search_everything" searchEverythingParamNames
        searchEverythingRequiredParams (params.map Prod.fst) with
    | .error e => .error e
    | .ok _ =>
      match self.search_everything upstream query from_date to_date language
          sort_by page_size page with
      | (true, .response result) => .ok result
      | _ => .ok (error_response "Failed to fetch news articles.")

/-- Embeds server.fetch_headlines.  The validation message omits the
allowed category general, although is_valid_category accepts it.  After
validation the call get_top_headlines(**params) carries the keys q,
country, category, pageSize, page; binding raises TypeError, uncaught. -/
def fetch_headlines (self : NewsAPIConnector)
    (upstream : HttpRequest → UpstreamOutcome) (category query country : String)
    (page_size page : Int) : Except PyExn NewsResponse :=
  if category != "" && !(is_valid_category category) then
    .ok (error_response
      "Invalid \x27category\x27 value. Use \x27business\x27, \x27entertainment\x27, \x27health\x27, \x27science\x27, \x27sports\x27, or \x27technology\x27.")
  else
    let params := serverHeadlineParams query country category page_size page
    match bindKwargs "get_top_headlines" topHeadlinesParamNames []
        (params.map Prod.fst) with
    | .error e => .error e
    | .ok _ =>
      match self.get_top_headlines upstream country
          (if category = "" then none else some category) (some query)
          page_size page with
      | (true, .response result) => .ok result
      | _ => .ok (error_response "Failed to fetch headlines.")

/- ==================== Startup (newsapi/__init__.py, imports) ========== -/

/-- An error that terminates process startup. -/
inductive StartupError where
  | valueError (msg : String)
  | importError (name : String)
deriving DecidableEq, Repr

/-- The KEYS table of newsapi/__init__.py. -/
def KEYS : List (String × String) :=
  [("NEWSAPI_KEY",
    "NewsAPI key is required. Set `NEWSAPI_KEY` environment variable."),
   ("NEWSAPI_URL",
    "NewsAPI URL is required. Set `NEWSAPI_URL` environment variable.")]

/-- The loop in newsapi/__init__.py: reading os.environ[key] raises
KeyError when absent, converted to ValueError(msg). -/
def checkEnvKeys (keys : List (String × String)) (env : String → Option String) :
    Except StartupError Unit :=
  match keys with
  | [] => .ok ()
  | (key, msg) :: rest =>
    match env key with
    | none => .error (.valueError msg)
    | some _ => checkEnvKeys rest env

/-- Top-level names bound in the module newsapi.models: its imports and
its three class definitions. -/
def modelsModuleNames : List String :=
  ["datetime", "BaseModel", "ConfigDict", "Field", "HttpUrl", "to_camel",
   "ArticleSource", "Article", "NewsResponse"]

/-- The names connector.py imports from .models. -/
def connectorImportedNames : List String :=
  ["ArticleResponse", "Article", "ArticleSource"]

/-- A from-import: each requested name must be bound in the source module,
else ImportError (cannot import name) is raised. -/
def importFrom (exports requested : List String) : Except StartupError Unit :=
  match requested with
  | [] => .ok ()
  | n :: rest =>
    if exports.contains n then importFrom exports rest
    else .error (.importError n)

/-- Process startup of server.py: importing newsapi.connector first runs
the package module newsapi/__init__.py (the environment check), then
executes connector.py, whose first model import must resolve.  Only when
both succeed does the process reach mcp.run(). -/
def serverStartup (env : String → Option String) : Except StartupError Unit :=
  match checkEnvKeys KEYS env with
  | .error e => .error e
  | .ok _ => importFrom modelsModuleNames connectorImportedNames

/-- An environment assigning only the two NewsAPI settings. -/
def envWith (k u : Option String) : String → Option String :=
  fun s => if s = "NEWSAPI_KEY" then k else if s = "NEWSAPI_URL" then u else none

/- ==================== Fixtures and rendering helpers ==================== -/

/-- The well-formed one-article fixture body used in the spec scenario:
source id null, source name "Example", title "T", the remaining optional
fields explicitly null. -/
def fixtureArticleJson : Json :=
  .obj [("source", .obj [("id", .null), ("name", .str "Example")]),
        ("author", .null), ("title", .str "T"), ("description", .null),
        ("url", .null), ("urlToImage", .null), ("publishedAt", .null),
        ("content", .null)]

/-- Fixture upstream body with status ok, totalResults 1 and one article. -/
def fixtureResponseJson : Json :=
  .obj [("status", .str "ok"), ("totalResults", .num 1),
        ("articles", .arr [fixtureArticleJson])]

/-- The same fixture body except that the article object omits the author
key entirely (all required top-level fields present). -/
def fixtureMissingAuthorJson : Json :=
  .obj [("status", .str "ok"), ("totalResults", .num 1),
        ("articles", .arr [
          .obj [("source", .obj [("id", .null), ("name", .str "Example")]),
                ("title", .str "T"), ("description", .null),
                ("url", .null), ("urlToImage", .null), ("publishedAt", .null),
                ("content", .null)]])]

/-- The decoded form of fixtureResponseJson. -/
def fixtureDecoded : NewsResponse :=
  ⟨"ok", 1,
   [⟨⟨none, some "Example"⟩, none, some "T", none, none, none, none, none⟩]⟩

/-- A connector configured the way deployment expects (base URL with a
trailing slash). -/
def demoConnector : NewsAPIConnector := ⟨"test-key", "https://newsapi.org/v2/"⟩

/-- A connector whose base URL lacks the trailing slash, to compare the
concatenation the code performs with the URL the spec writes. -/
def slashlessConnector : NewsAPIConnector := ⟨"k", "https://newsapi.org/v2"⟩

/-- The character rendering a decimal digit. -/
def dig (n : Nat) : Char := Char.ofNat (48 + n)

/- ==================== Helper lemmas ==================== -/

theorem except_error_bind {α β ε : Type} (e : ε) (f : α → Except ε β) :
    (Except.error e >>= f) = (Except.error e : Except ε β) := rfl

theorem dig_isAsciiDigit (n : Nat) (h : n < 10) : isAsciiDigit (dig n) = true := by
  interval_cases n <;> decide

theorem dig_toNat (n : Nat) (h : n < 10) : (dig n).toNat = 48 + n := by
  interval_cases n <;> decide

theorem parseY4_dig (a b c d : Nat) (ha : a < 10) (hb : b < 10) (hc : c < 10)
    (hd : d < 10) (rest : List Char) :
    parseY4 (dig a :: dig b :: dig c :: dig d :: rest)
      = some (1000 * a + 100 * b + 10 * c + d, rest) := by
  simp [parseY4, dig_isAsciiDigit, ha, hb, hc, hd, dig_toNat]

theorem parseMonth2_dig (m1 m2 : Nat) (h1 : m1 < 10) (h2 : m2 < 10)
    (hlo : 1 ≤ 10 * m1 + m2) (hhi : 10 * m1 + m2 ≤ 12) (rest : List Char) :
    parseMonth2 (dig m1 :: dig m2 :: rest) = some (10 * m1 + m2, rest) := by
  have hm1 : m1 ≤ 1 := by omega
  interval_cases m1
  · have h2lo : 1 ≤ m2 := by omega
    interval_cases m2 <;> rfl
  · have h2hi : m2 ≤ 2 := by omega
    interval_cases m2 <;> rfl

theorem parseDay2_dig (d1 d2 : Nat) (h1 : d1 < 10) (h2 : d2 < 10)
    (hlo : 1 ≤ 10 * d1 + d2) (hhi : 10 * d1 + d2 ≤ 31) (rest : List Char) :
    parseDay2 (dig d1 :: dig d2 :: rest) = some (10 * d1 + d2, rest) := by
  have hd1 : d1 ≤ 3 := by omega
  interval_cases d1
  · have : 1 ≤ d2 := by omega
    interval_cases d2 <;> rfl
  · interval_cases d2 <;> rfl
  · interval_cases d2 <;> rfl
  · have : d2 ≤ 1 := by omega
    interval_cases d2 <;> rfl

theorem daysInMonth_le31 (y m : Nat) : daysInMonth y m ≤ 31 := by
  unfold daysInMonth
  split
  · split <;> omega
  · split <;> omega

/-- Every strict zero-padded real calendar date, given through its digit
values, satisfies the strptime embedding. -/
theorem strptime_accepts_strict (y1 y2 y3 y4 m1 m2 d1 d2 : Nat)
    (hy1 : y1 < 10) (hy2 : y2 < 10) (hy3 : y3 < 10) (hy4 : y4 < 10)
    (hm1 : m1 < 10) (hm2 : m2 < 10) (hd1 : d1 < 10) (hd2 : d2 < 10)
    (hy : 1 ≤ 1000 * y1 + 100 * y2 + 10 * y3 + y4)
    (hmlo : 1 ≤ 10 * m1 + m2) (hmhi : 10 * m1 + m2 ≤ 12)
    (hdlo : 1 ≤ 10 * d1 + d2)
    (hdhi : 10 * d1 + d2
      ≤ daysInMonth (1000 * y1 + 100 * y2 + 10 * y3 + y4) (10 * m1 + m2)) :
    is_valid_date (some (String.mk [dig y1, dig y2, dig y3, dig y4, '-',
      dig m1, dig m2, '-', dig d1, dig d2])) = true := by
  have hd31 : 10 * d1 + d2 ≤ 31 := le_trans hdhi (daysInMonth_le31 _ _)
  show strptimeYmd _ = true
  unfold strptimeYmd
  rw [show (String.mk [dig y1, dig y2, dig y3, dig y4, '-', dig m1, dig m2,
      '-', dig d1, dig d2]).data
    = [dig y1, dig y2, dig y3, dig y4, '-', dig m1, dig m2, '-', dig d1,
       dig d2] from rfl]
  unfold parseYmd
  rw [parseY4_dig y1 y2 y3 y4 hy1 hy2 hy3 hy4]
  simp only [Option.some_bind']
  rw [show expectDash ['-', dig m1, dig m2, '-', dig d1, dig d2]
      = some [dig m1, dig m2, '-', dig d1, dig d2] from rfl]
  simp only [Option.some_bind']
  rw [parseMonth2_dig m1 m2 hm1 hm2 hmlo hmhi]
  simp only [Option.some_bind']
  rw [show expectDash ['-', dig d1, dig d2] = some [dig d1, dig d2] from rfl]
  simp only [Option.some_bind']
  rw [parseDay2_dig d1 d2 hd1 hd2 hdlo hd31]
  simp only [Option.some_bind', List.isEmpty_nil, if_true]
  show datetimeCtorOk _ _ _ = true
  unfold datetimeCtorOk
  simp only [Bool.and_eq_true, decide_eq_true_eq]
  refine ⟨⟨⟨⟨⟨?_, ?_⟩, ?_⟩, ?_⟩, ?_⟩, ?_⟩ <;> omega

/- ==================== Claim theorems ==================== -/

/-- Claim C1 (code_bug). With the scenario inputs (query technology, from
2024-01-01, to 2024-01-08, valid sort), fetch_news builds the params dict
with keys q, from, to, language, sortBy, pageSize, page and calls
search_everything(**params); the connector declares the parameters query,
from_date, to_date, language, sort_by, page_size, page, so keyword binding
raises TypeError before any request is made, for every connector
configuration and every upstream, including the fixture upstream of the
claim.  The decoded ArticleResponse is never returned and the exception
reaches the caller, contradicting the claim (and the expectations of the
repository test suite, which calls the connector with the same keys). -/
theorem fetch_news_fixture_raises_typeerror :
    ∀ (c : NewsAPIConnector) (u : HttpRequest → UpstreamOutcome),
    fetch_news c u "technology" (some "2024-01-01") (some "2024-01-08") "en"
      "publishedAt" 10 1
      = .error (.typeError
          "search_everything() got an unexpected keyword argument \x27q\x27") := by
  intro c u
  rfl

/-- Claim C2 (code_bug). A validation failure (from_date 01-01-2024)
returns, without raising and without consulting the upstream, the value
error_response builds: status error, empty articles, totalResults 0.  But
models.NewsResponse declares no message field and the pydantic default
extra="ignore" drops the message keyword error_response passes, so no
message is present on the returned object: its serialized key set omits
message, and the retained constructor keys exclude it. -/
theorem validation_error_result_lacks_message :
    ∀ (c : NewsAPIConnector) (u : HttpRequest → UpstreamOutcome) (m : String),
    fetch_news c u "x" (some "01-01-2024") none "en" "publishedAt" 10 1
      = .ok (error_response "Invalid \x27from_date\x27 format. Use YYYY-MM-DD.")
    ∧ (error_response m).status = "error"
    ∧ (error_response m).articles = []
    ∧ (error_response m).totalResults = 0
    ∧ Json.lookupKey (NewsResponse.model_dump (error_response m)) "message" = none
    ∧ newsResponseCtorKeptKeys ["status", "message", "articles", "totalResults"]
        = ["status", "articles", "totalResults"] := by
  intro c u m
  exact ⟨rfl, rfl, rfl, rfl, rfl, rfl⟩

/-- Claim C3 (corrected), counterexample.  A body whose three required
top-level fields are all present, but whose article object omits the
optional field author, fails the whole decode instead of decoding author
to null: pydantic fields annotated X | None without a default are still
required. -/
theorem decode_missing_author_fails :
    NewsResponse.model_validate fixtureMissingAuthorJson
      = .error "Field required: author"
    ∧ (Json.lookupKey fixtureMissingAuthorJson "status").isSome = true
    ∧ (Json.lookupKey fixtureMissingAuthorJson "totalResults").isSome = true
    ∧ (Json.lookupKey fixtureMissingAuthorJson "articles").isSome = true :=
  ⟨rfl, rfl, rfl, rfl⟩

/-- Claim C3 (corrected), amended.  The decode fails whenever a required
top-level field (status, totalResults, articles) is missing; an article
field explicitly set to null decodes to null; an article object that
omits a declared field key entirely fails the decode rather than
defaulting the field to null. -/
theorem decode_required_and_null_fields :
    (∀ fields : List (String × Json), jlookup fields "status" = none →
      NewsResponse.model_validate (.obj fields) = .error "Field required: status")
    ∧ (∀ (fields : List (String × Json)) (st : String),
        jlookup fields "status" = some (.str st) →
        jlookup fields "totalResults" = none →
        NewsResponse.model_validate (.obj fields)
          = .error "Field required: totalResults")
    ∧ (∀ (fields : List (String × Json)) (st : String) (n : Int),
        jlookup fields "status" = some (.str st) →
        jlookup fields "totalResults" = some (.num n) →
        jlookup fields "articles" = none →
        NewsResponse.model_validate (.obj fields)
          = .error "Field required: articles")
    ∧ NewsResponse.model_validate fixtureResponseJson = .ok fixtureDecoded
    ∧ NewsResponse.model_validate fixtureMissingAuthorJson
        = .error "Field required: author" := by
  refine ⟨?_, ?_, ?_, rfl, rfl⟩
  · intro fields h
    simp only [NewsResponse.model_validate, requiredField, h, except_error_bind]
    rfl
  · intro fields st hs h
    simp only [NewsResponse.model_validate, requiredField, parseStrField, hs, h,
      except_error_bind]
    rfl
  · intro fields st n hs ht h
    simp only [NewsResponse.model_validate, requiredField, parseStrField,
      parseIntField, hs, ht, h, except_error_bind]
    rfl

/-- Witness for decode_required_and_null_fields: a concrete body missing
the status key fails the decode with the required-field error. -/
theorem decode_required_and_null_fields_witness :
    NewsResponse.model_validate
      (.obj [("totalResults", .num 0), ("articles", .arr [])])
      = .error "Field required: status" :=
  decode_required_and_null_fields.1
    [("totalResults", .num 0), ("articles", .arr [])] rfl

/-- Claim C4 (corrected), counterexample.  An upstream HTTP 429 yields a
failure whose message is the Unexpected-error rendering of the
HTTPStatusError, not a message of the request/transport class:
raise_for_status raises httpx.HTTPStatusError, which does not derive from
httpx.RequestError, so the generic except-Exception handler produces the
message. -/
theorem non2xx_message_class_counterexample :
    demoConnector.search_everything (fun _ => .response 429 (Json.obj []))
      "x" none none "en" "publishedAt" 10 1
      = (false, .msg "Unexpected error: Client error \x27429\x27")
    ∧ charsStartWith "Unexpected error: Client error \x27429\x27".data
        "Request error".data = false
    ∧ charsStartWith "Unexpected error: Client error \x27429\x27".data
        "Unexpected error".data = true :=
  ⟨rfl, by decide, by decide⟩

/-- Claim C4 (corrected), amended.  For every non-2xx status the result of
both connector methods is a failure carrying the Unexpected-error message
for that status code, and the body is never decoded (the result is the
same for every body). -/
theorem non2xx_failure_no_decode :
    ∀ (c : NewsAPIConnector) (code : Nat) (body : Json) (q : String),
    ¬ (200 ≤ code ∧ code ≤ 299) →
    c.search_everything (fun _ => .response code body) q none none "en"
      "publishedAt" 10 1
      = (false, .msg ("Unexpected error: " ++ httpStatusErrorStr code))
    ∧ c.get_top_headlines (fun _ => .response code body) "us" none none 10 1
      = (false, .msg ("Unexpected error: " ++ httpStatusErrorStr code)) := by
  intro c code body q h
  constructor
  · have step : c.search_everything (fun _ => .response code body) q none none
        "en" "publishedAt" 10 1 = newsapiTryBlock (.response code body) := rfl
    rw [step]
    simp only [newsapiTryBlock]
    rw [if_neg h]
  · have step : c.get_top_headlines (fun _ => .response code body) "us" none
        none 10 1 = newsapiTryBlock (.response code body) := rfl
    rw [step]
    simp only [newsapiTryBlock]
    rw [if_neg h]

/-- Witness for non2xx_failure_no_decode at the concrete status 429. -/
theorem non2xx_failure_no_decode_witness :
    demoConnector.search_everything (fun _ => .response 429 (Json.obj []))
      "q" none none "en" "publishedAt" 10 1
      = (false, .msg ("Unexpected error: " ++ httpStatusErrorStr 429)) :=
  (non2xx_failure_no_decode demoConnector 429 (Json.obj []) "q" (by omega)).1

/-- Claim C5 (confirmed).  In all four builders (server and connector,
search and headlines paths) the pageSize entry equals min(requested, 100);
and for requested sizes at most 0 the value passes through unchanged. -/
theorem built_page_size_min_100 :
    ∀ (ps pg : Int) (q lang sb ctry cat : String) (fd td : Option String),
    plookup (serverSearchParams q fd td lang sb ps pg) "pageSize"
      = some (.int (min ps 100))
    ∧ plookup (serverHeadlineParams q ctry cat ps pg) "pageSize"
      = some (.int (min ps 100))
    ∧ plookup (connectorSearchParams q fd td lang sb ps pg) "pageSize"
      = some (.int (min ps 100))
    ∧ plookup (connectorHeadlineParams ctry fd td ps pg) "pageSize"
      = some (.int (min ps 100))
    ∧ (ps ≤ 0 →
        plookup (serverSearchParams q fd td lang sb ps pg) "pageSize"
          = some (.int ps)
        ∧ plookup (connectorSearchParams q fd td lang sb ps pg) "pageSize"
          = some (.int ps)) := by
  intro ps pg q lang sb ctry cat fd td
  refine ⟨?_, rfl, rfl, rfl, ?_⟩
  · cases fd <;> cases td <;> rfl
  · intro h
    have hmin : min ps 100 = ps := by omega
    constructor
    · have base : plookup (serverSearchParams q fd td lang sb ps pg) "pageSize"
          = some (.int (min ps 100)) := by
        cases fd <;> cases td <;> rfl
      rw [base, hmin]
    · have base : plookup (connectorSearchParams q fd td lang sb ps pg)
          "pageSize" = some (.int (min ps 100)) := rfl
      rw [base, hmin]

/-- Witness for built_page_size_min_100: a requested page size of -3 is
placed in the mapping unchanged. -/
theorem built_page_size_min_100_witness :
    plookup (serverSearchParams "x" none none "en" "publishedAt" (-3) 1)
      "pageSize" = some (.int (-3)) :=
  ((built_page_size_min_100 (-3) 1 "x" "en" "publishedAt" "us" "general"
    none none).2.2.2.2 (by omega)).1

/-- Claim C6 (corrected), counterexample.  The string 2024-1-1 is not a
strict zero-padded YYYY-MM-DD date, hence malformed in the sense of the
claim, yet the validator accepts it. -/
theorem date_validator_strict_form_counterexample :
    is_valid_date (some "2024-1-1") = true ∧ isStrictYmd "2024-1-1" = false :=
  ⟨by decide, by decide⟩

/-- Claim C6 (corrected), amended.  None is valid; every strict
zero-padded real calendar date (given through its digit values) is valid;
wrong separators, non-numeric content, month 13, an out-of-range day and a
time suffix are all invalid; but the validator, being defined by strptime
with format %Y-%m-%d, additionally accepts non-zero-padded real dates such
as 2024-1-1. -/
theorem date_validator_behaviour :
    (is_valid_date none = true)
    ∧ (∀ y1 y2 y3 y4 m1 m2 d1 d2 : Nat,
        y1 < 10 → y2 < 10 → y3 < 10 → y4 < 10 →
        m1 < 10 → m2 < 10 → d1 < 10 → d2 < 10 →
        1 ≤ 1000 * y1 + 100 * y2 + 10 * y3 + y4 →
        1 ≤ 10 * m1 + m2 → 10 * m1 + m2 ≤ 12 →
        1 ≤ 10 * d1 + d2 →
        10 * d1 + d2
          ≤ daysInMonth (1000 * y1 + 100 * y2 + 10 * y3 + y4) (10 * m1 + m2) →
        is_valid_date (some (String.mk [dig y1, dig y2, dig y3, dig y4, '-',
          dig m1, dig m2, '-', dig d1, dig d2])) = true)
    ∧ is_valid_date (some "2024/01/01") = false
    ∧ is_valid_date (some "abcd-ef-gh") = false
    ∧ is_valid_date (some "2024-13-01") = false
    ∧ is_valid_date (some "2024-02-30") = false
    ∧ is_valid_date (some "2024-01-01T00:00:00Z") = false
    ∧ is_valid_date (some "2024-1-1") = true := by
  refine ⟨rfl, ?_, by decide, by decide, by decide, by decide, by decide,
    by decide⟩
  intro y1 y2 y3 y4 m1 m2 d1 d2 hy1 hy2 hy3 hy4 hm1 hm2 hd1 hd2 hy hmlo hmhi
    hdlo hdhi
  exact strptime_accepts_strict y1 y2 y3 y4 m1 m2 d1 d2 hy1 hy2 hy3 hy4 hm1
    hm2 hd1 hd2 hy hmlo hmhi hdlo hdhi

/-- Witness for date_validator_behaviour: the strict date 2024-05-07. -/
theorem date_validator_behaviour_witness :
    is_valid_date (some (String.mk [dig 2, dig 0, dig 2, dig 4, '-', dig 0,
      dig 5, '-', dig 0, dig 7])) = true :=
  date_validator_behaviour.2.1 2 0 2 4 0 5 0 7 (by decide) (by decide)
    (by decide) (by decide) (by decide) (by decide) (by decide) (by decide)
    (by decide) (by decide) (by decide) (by decide) (by decide)

/-- Claim C7 (code_bug).  fetch_headlines with category politics returns
the error_response without consulting the upstream (the result is the
same for every upstream), and its status is error; but the returned
object carries no message at all (models.NewsResponse declares none and
pydantic drops the extra keyword), and even the message string that was
passed omits the allowed category general, although is_valid_category
accepts general. -/
theorem invalid_category_error_shape :
    ∀ (c : NewsAPIConnector) (u : HttpRequest → UpstreamOutcome),
    fetch_headlines c u "politics" "x" "us" 10 1
      = .ok (error_response
          "Invalid \x27category\x27 value. Use \x27business\x27, \x27entertainment\x27, \x27health\x27, \x27science\x27, \x27sports\x27, or \x27technology\x27.")
    ∧ (error_response
        "Invalid \x27category\x27 value. Use \x27business\x27, \x27entertainment\x27, \x27health\x27, \x27science\x27, \x27sports\x27, or \x27technology\x27.").status
        = "error"
    ∧ Json.lookupKey (NewsResponse.model_dump (error_response
        "Invalid \x27category\x27 value. Use \x27business\x27, \x27entertainment\x27, \x27health\x27, \x27science\x27, \x27sports\x27, or \x27technology\x27."))
        "message" = none
    ∧ is_valid_category "general" = true
    ∧ strMentions
        "Invalid \x27category\x27 value. Use \x27business\x27, \x27entertainment\x27, \x27health\x27, \x27science\x27, \x27sports\x27, or \x27technology\x27."
        "general" = false
    ∧ strMentions
        "Invalid \x27category\x27 value. Use \x27business\x27, \x27entertainment\x27, \x27health\x27, \x27science\x27, \x27sports\x27, or \x27technology\x27."
        "business" = true := by
  intro c u
  exact ⟨rfl, rfl, rfl, by decide, by decide, by decide⟩

/-- Claim C8 (corrected), counterexample.  The code concatenates base_url
directly with the path segment, inserting no slash: with a base URL that
does not end in a slash the issued URL is not baseUrl/everything. -/
theorem request_url_slash_counterexample :
    (searchRequestOf slashlessConnector []).url
      = "https://newsapi.org/v2everything"
    ∧ (("https://newsapi.org/v2everything"
        == "https://newsapi.org/v2" ++ "/everything") = false)
    ∧ (topHeadlinesRequestOf slashlessConnector []).url
      = "https://newsapi.org/v2top-headlines"
    ∧ (("https://newsapi.org/v2top-headlines"
        == "https://newsapi.org/v2" ++ "/top-headlines") = false) :=
  ⟨rfl, by decide, rfl, by decide⟩

/-- Claim C8 (corrected), amended.  Each call issues a single GET carrying
the built parameter mapping, the fixed 30-second timeout and the static
X-Api-Key header, to the URL formed by concatenating base_url directly
with everything or top-headlines (no slash is inserted); with valid
inputs, the whole method result is the handling of the upstream answer to
exactly that request. -/
theorem request_shape_get_timeout_header :
    ∀ (c : NewsAPIConnector) (ps : List (String × PValue))
      (u : HttpRequest → UpstreamOutcome) (q : String),
    searchRequestOf c ps
      = ⟨"GET", c.base_url ++ "everything", ps, [("X-Api-Key", c.api_key)], 30⟩
    ∧ topHeadlinesRequestOf c ps
      = ⟨"GET", c.base_url ++ "top-headlines", ps,
         [("X-Api-Key", c.api_key)], 30⟩
    ∧ c.search_everything u q none none "en" "publishedAt" 10 1
      = newsapiTryBlock (u (searchRequestOf c
          (connectorSearchParams q none none "en" "publishedAt" 10 1)))
    ∧ c.get_top_headlines u "us" none none 10 1
      = newsapiTryBlock (u (topHeadlinesRequestOf c
          (connectorHeadlineParams "us" none none 10 1))) := by
  intro c ps u q
  exact ⟨rfl, rfl, rfl, rfl⟩

/-- Claim C9 (code_bug).  The startup check reads the two settings once
and a missing key or URL is a fatal ValueError, as the claim says; but
even with both settings present the process still fails to start serving,
because connector.py imports the name ArticleResponse from models.py,
which does not define it — an ImportError, not a missing-configuration
error, also terminates the process. -/
theorem startup_config_and_import :
    (∀ u : Option String, serverStartup (envWith none u)
      = .error (.valueError
          "NewsAPI key is required. Set `NEWSAPI_KEY` environment variable."))
    ∧ (∀ k : String, serverStartup (envWith (some k) none)
      = .error (.valueError
          "NewsAPI URL is required. Set `NEWSAPI_URL` environment variable."))
    ∧ (∀ k u : String, serverStartup (envWith (some k) (some u))
      = .error (.importError "ArticleResponse")) :=
  ⟨fun u => rfl, fun k => rfl, fun k u => rfl⟩

/-- Claim C10 (confirmed).  The non-zero-padded string 2024-1-1 is not in
strict four-two-two digit form, yet the strptime-based validator accepts
it, and the connector builder forwards the accepted strings verbatim under
the from and to keys (the server builder does the same). -/
theorem nonpadded_date_accepted_and_forwarded :
    is_valid_date (some "2024-1-1") = true
    ∧ isStrictYmd "2024-1-1" = false
    ∧ plookup (connectorSearchParams "ai" (some "2024-1-1") (some "2024-1-2")
        "en" "publishedAt" 10 1) "from" = some (.str "2024-1-1")
    ∧ plookup (connectorSearchParams "ai" (some "2024-1-1") (some "2024-1-2")
        "en" "publishedAt" 10 1) "to" = some (.str "2024-1-2")
    ∧ plookup (serverSearchParams "ai" (some "2024-1-1") (some "2024-1-2")
        "en" "publishedAt" 10 1) "from" = some (.str "2024-1-1")
    ∧ plookup (serverSearchParams "ai" (some "2024-1-1") (some "2024-1-2")
        "en" "publishedAt" 10 1) "to" = some (.str "2024-1-2") :=
  ⟨by decide, by decide, rfl, rfl, rfl, rfl⟩
